import Mathlib

/-!
Verification of the Column accessor of SQLiteCpp (src/SQLiteC++/Column.h).

The repository source available here is the header Column.h: it declares the
accessor class, its const-qualified nothrow getters, and gives inline bodies
for the five type predicates, the cast operators, the std::string conversion
and errmsg. The bodies of the out-of-line members (constructor, destructor,
getInt, getInt64, getDouble, getText, getBlob, getType, getBytes, and the
stream inserter of Column.cpp) and the engine primitives of sqlite3 are not
in the source tree; those are modelled from the specification, as marked on
each definition below.

Modelling conventions:
- engine doubles are modelled as exact rationals (every concrete value the
  properties mention, such as 0.0 and 42.0, is exactly representable);
- text is modelled as a String whose characters stand for single bytes, so
  the byte length of a text value is its character count;
- the borrowed pointers returned by getText and getBlob are modelled as
  references carrying the statement id they borrow from together with the
  byte content they point at; validity of such a reference in a state is
  that the statement still exists.
-/

namespace SQLiteCpp

/-- From sqlite3.h: the fundamental datatype code for an integer value. -/
def SQLITE_INTEGER : Int := 1

/-- From sqlite3.h: the fundamental datatype code for a floating point value. -/
def SQLITE_FLOAT : Int := 2

/-- From sqlite3.h: the fundamental datatype code for a text value. -/
def SQLITE_TEXT : Int := 3

/-- From sqlite3.h: the fundamental datatype code for a blob value. -/
def SQLITE_BLOB : Int := 4

/-- From sqlite3.h: the fundamental datatype code for a null value. -/
def SQLITE_NULL : Int := 5

/-- Modelled from the spec: the value stored in one cell of the current
result row, in one of the five storage classes of the engine
(sqlite3 storage classes; Column.cpp and the engine are not in src). -/
inductive CellValue where
  | integer (i : Int)
  | float (q : Rat)
  | text (s : String)
  | blob (b : List Nat)
  | null
deriving DecidableEq

/-- Modelled from the spec: the storage-class tag of a cell, as
sqlite3_column_type reports it. -/
def CellValue.typeTag : CellValue → Int
  | .integer _ => SQLITE_INTEGER
  | .float _ => SQLITE_FLOAT
  | .text _ => SQLITE_TEXT
  | .blob _ => SQLITE_BLOB
  | .null => SQLITE_NULL

/-- Numeric value of a list of decimal digit characters. -/
def digitsVal (cs : List Char) : Nat :=
  cs.foldl (fun a c => 10 * a + (c.toNat - 48)) 0

/-- Modelled from the spec: best-effort parse of the leading integer part of
a text value (optional sign then decimal digits), else 0. -/
def intFromTextLead (s : String) : Int :=
  match s.data with
  | '-' :: cs => -(digitsVal (cs.takeWhile Char.isDigit) : Int)
  | '+' :: cs => (digitsVal (cs.takeWhile Char.isDigit) : Int)
  | cs => (digitsVal (cs.takeWhile Char.isDigit) : Int)

/-- Leading unsigned decimal number of a character list, with an optional
fractional part. -/
def ratFromDigitsLead (cs : List Char) : Rat :=
  (digitsVal (cs.takeWhile Char.isDigit) : Rat) +
    match cs.drop (cs.takeWhile Char.isDigit).length with
    | '.' :: cs2 =>
        (digitsVal (cs2.takeWhile Char.isDigit) : Rat) /
          ((10 : Rat) ^ (cs2.takeWhile Char.isDigit).length)
    | _ => 0

/-- Modelled from the spec: best-effort parse of the leading numeric part of
a text value as a rational (the model of an engine double), else 0. -/
def ratFromTextLead (s : String) : Rat :=
  match s.data with
  | '-' :: cs => -(ratFromDigitsLead cs)
  | '+' :: cs => ratFromDigitsLead cs
  | cs => ratFromDigitsLead cs

/-- Truncation of a rational toward zero, the integer coercion the engine
applies to a floating point value. -/
def ratTrunc (q : Rat) : Int := q.num / (q.den : Int)

/-- Bytes of a blob read back as text (one character per byte). -/
def bytesAsText (b : List Nat) : String := String.mk (b.map Char.ofNat)

/-- Modelled from the spec: decimal text representation of the model of an
engine double. -/
def ratToText (q : Rat) : String :=
  if q.den = 1 then toString q.num ++ ".0"
  else toString q.num ++ "/" ++ toString q.den

/-- Modelled from the spec: the engine integer coercion of a cell value
(native value for numerics, leading numeric prefix for text and blob,
0 for null). -/
def CellValue.toInt64 : CellValue → Int
  | .integer i => i
  | .float q => ratTrunc q
  | .text s => intFromTextLead s
  | .blob b => intFromTextLead (bytesAsText b)
  | .null => 0

/-- Modelled from the spec: the engine double coercion of a cell value. -/
def CellValue.toDouble : CellValue → Rat
  | .integer i => (i : Rat)
  | .float q => q
  | .text s => ratFromTextLead s
  | .blob b => ratFromTextLead (bytesAsText b)
  | .null => 0

/-- Modelled from the spec: the engine text coercion of a cell value. -/
def CellValue.toText : CellValue → String
  | .integer i => toString i
  | .float q => ratToText q
  | .text s => s
  | .blob b => bytesAsText b
  | .null => ""

/-- Modelled from the spec: the engine blob view of a cell value. -/
def CellValue.toBlobBytes : CellValue → List Nat
  | .blob b => b
  | .null => []
  | v => (CellValue.toText v).data.map Char.toNat

/-- Modelled from the header documentation of getBytes: byte size of the
text representation without the NUL terminator, byte size of a blob, and
0 for a null cell. -/
def CellValue.byteLength : CellValue → Int
  | .null => 0
  | .blob b => (b.length : Int)
  | v => ((CellValue.toText v).length : Int)

/-- Wrap of a 64-bit engine integer to the 32-bit int that getInt returns. -/
def toInt32Wrap (i : Int) : Int := (i + 2 ^ 31) % 2 ^ 32 - 2 ^ 31

/-- Modelled from the spec: one prepared statement object of the engine,
with the reference count of its shared handle, the connection that owns it,
and the cells of the current result row. -/
structure StmtObj where
  refCount : Nat
  connId : Nat
  row : List CellValue
deriving DecidableEq

/-- Modelled from the spec: the engine world the accessor reads through,
mapping statement ids to live statement objects and connection ids to the
text of their most recent error. -/
structure EngineState where
  stmts : Nat → Option StmtObj
  connError : Nat → String

/-- Statement::Ptr of Statement.h (not in src): the shared reference-counted
handle to a prepared statement, modelled from the spec as the id of the
statement it refers to; the count itself lives in the engine world. -/
structure StatementPtr where
  stmtId : Nat
deriving DecidableEq

/-- The Column class of Column.h: a shared pointer to the prepared statement
and the index of the column in the row of result, the only two fields. -/
structure Column where
  mStmtPtr : StatementPtr
  mIndex : Int
deriving DecidableEq

/-- Modelled from the spec: the borrowed pointer getText returns, carrying
the statement whose row buffer owns it and the bytes it points at. -/
structure TextRef where
  stmtId : Nat
  bytes : String
deriving DecidableEq

/-- Modelled from the spec: the borrowed pointer getBlob returns. -/
structure BlobRef where
  stmtId : Nat
  bytes : List Nat
deriving DecidableEq

/-- A borrowed text reference is valid while its statement is alive. -/
def TextRef.valid (t : TextRef) (st : EngineState) : Bool :=
  (st.stmts t.stmtId).isSome

/-- The cell a column is bound to: the slot mIndex of the current row of the
statement mStmtPtr points at, none when the statement is gone or the index
is out of range. -/
def EngineState.cellOf (st : EngineState) (c : Column) : Option CellValue :=
  match st.stmts c.mStmtPtr.stmtId with
  | none => none
  | some o => if 0 ≤ c.mIndex then o.row.get? c.mIndex.toNat else none

/-- Modelled from the spec: in-place coercion of the cell a column is bound
to, the engine side effect of a heterogeneous getter call. -/
def EngineState.writeCell (st : EngineState) (c : Column) (v : CellValue) :
    EngineState :=
  { st with stmts := fun n =>
      if n = c.mStmtPtr.stmtId then
        (st.stmts n).map (fun o => { o with row := o.row.set c.mIndex.toNat v })
      else st.stmts n }

/-- Modelled from the spec: copying a Statement::Ptr increments the
reference count of the statement it refers to. -/
def EngineState.incRef (st : EngineState) (p : StatementPtr) : EngineState :=
  { st with stmts := fun n =>
      if n = p.stmtId then
        (st.stmts n).map (fun o => { o with refCount := o.refCount + 1 })
      else st.stmts n }

/-- Modelled from the spec: releasing a Statement::Ptr decrements the
reference count, and the statement is reclaimed when the count reaches 0. -/
def EngineState.decRef (st : EngineState) (p : StatementPtr) : EngineState :=
  { st with stmts := fun n =>
      if n = p.stmtId then
        match st.stmts n with
        | some o =>
            if o.refCount ≤ 1 then none
            else some { o with refCount := o.refCount - 1 }
        | none => none
      else st.stmts n }

/-- Modelled from the spec: finalizing a statement destroys it; every
borrowed pointer into its row buffer becomes invalid. -/
def EngineState.finalize (st : EngineState) (p : StatementPtr) : EngineState :=
  { st with stmts := fun n => if n = p.stmtId then none else st.stmts n }

/-- Modelled from the spec: sqlite3_errmsg, the engine primitive returning
the most recent error description of a connection. -/
def sqlite3_errmsg (st : EngineState) (connId : Nat) : String :=
  st.connError connId

/-- The connection reachable from a statement handle (the conversion of
Statement::Ptr to the sqlite3 connection pointer that Statement.h supplies,
modelled from the spec). -/
def EngineState.connOfPtr (st : EngineState) (p : StatementPtr) : Nat :=
  match st.stmts p.stmtId with
  | some o => o.connId
  | none => 0

/-- Column constructor of Column.h: stores the shared handle and the index;
copying the handle into mStmtPtr increments the reference count. -/
def Column.construct (p : StatementPtr) (idx : Int) (st : EngineState) :
    Column × EngineState :=
  ({ mStmtPtr := p, mIndex := idx }, st.incRef p)

/-- Default copy of Column (per the comment in Column.h, the default copy
operations copy the Statement::Ptr, which increments the reference
counter, and copy the index). -/
def Column.copy (c : Column) (st : EngineState) : Column × EngineState :=
  ({ mStmtPtr := c.mStmtPtr, mIndex := c.mIndex }, st.incRef c.mStmtPtr)

/-- Column destructor of Column.h: releases the shared handle. -/
def Column.destroy (c : Column) (st : EngineState) : EngineState :=
  st.decRef c.mStmtPtr

/-- Column::getInt. Modelled from the spec: the engine integer coercion of
the bound cell, truncated to 32 bits, with in-place coercion of the cell;
0 and no effect when there is no value to read. -/
def Column.getInt (c : Column) (st : EngineState) : Int × EngineState :=
  match st.cellOf c with
  | none => (0, st)
  | some .null => (0, st)
  | some v => (toInt32Wrap v.toInt64, st.writeCell c (.integer v.toInt64))

/-- Column::getInt64. Modelled from the spec: the engine integer coercion of
the bound cell at full width, with in-place coercion of the cell. -/
def Column.getInt64 (c : Column) (st : EngineState) : Int × EngineState :=
  match st.cellOf c with
  | none => (0, st)
  | some .null => (0, st)
  | some v => (v.toInt64, st.writeCell c (.integer v.toInt64))

/-- Column::getDouble. Modelled from the spec: the engine double coercion of
the bound cell, with in-place coercion of the cell. -/
def Column.getDouble (c : Column) (st : EngineState) : Rat × EngineState :=
  match st.cellOf c with
  | none => (0, st)
  | some .null => (0, st)
  | some v => (v.toDouble, st.writeCell c (.float v.toDouble))

/-- Column::getText. Modelled from the spec: a borrowed pointer to the NUL
terminated text coercion of the bound cell, owned by the statement row
buffer, with in-place coercion of the cell; an empty text and no effect
when the cell is null or there is no value to read. -/
def Column.getText (c : Column) (st : EngineState) : TextRef × EngineState :=
  match st.cellOf c with
  | none => ({ stmtId := c.mStmtPtr.stmtId, bytes := "" }, st)
  | some .null => ({ stmtId := c.mStmtPtr.stmtId, bytes := "" }, st)
  | some v =>
      ({ stmtId := c.mStmtPtr.stmtId, bytes := v.toText },
        st.writeCell c (.text v.toText))

/-- Column::getBlob. Modelled from the spec: a borrowed pointer to the raw
bytes of the bound cell, with in-place coercion of the cell. -/
def Column.getBlob (c : Column) (st : EngineState) : BlobRef × EngineState :=
  match st.cellOf c with
  | none => ({ stmtId := c.mStmtPtr.stmtId, bytes := [] }, st)
  | some .null => ({ stmtId := c.mStmtPtr.stmtId, bytes := [] }, st)
  | some v =>
      ({ stmtId := c.mStmtPtr.stmtId, bytes := v.toBlobBytes },
        st.writeCell c (.blob v.toBlobBytes))

/-- Column::getType. Modelled from the spec: the storage-class tag of the
bound cell as currently stored, SQLITE_NULL when there is nothing to read;
no coercion is performed. -/
def Column.getType (c : Column) (st : EngineState) : Int :=
  match st.cellOf c with
  | none => SQLITE_NULL
  | some v => v.typeTag

/-- Column::isInteger, inline in Column.h: SQLITE_INTEGER == getType(). -/
def Column.isInteger (c : Column) (st : EngineState) : Bool :=
  SQLITE_INTEGER == c.getType st

/-- Column::isFloat, inline in Column.h: SQLITE_FLOAT == getType(). -/
def Column.isFloat (c : Column) (st : EngineState) : Bool :=
  SQLITE_FLOAT == c.getType st

/-- Column::isText, inline in Column.h: SQLITE_TEXT == getType(). -/
def Column.isText (c : Column) (st : EngineState) : Bool :=
  SQLITE_TEXT == c.getType st

/-- Column::isBlob, inline in Column.h: SQLITE_BLOB == getType(). -/
def Column.isBlob (c : Column) (st : EngineState) : Bool :=
  SQLITE_BLOB == c.getType st

/-- Column::isNull, inline in Column.h: SQLITE_NULL == getType(). -/
def Column.isNull (c : Column) (st : EngineState) : Bool :=
  SQLITE_NULL == c.getType st

/-- Column::getBytes. Modelled from the header documentation: byte size of
the text representation of the value, size of a blob, 0 for null or when
there is nothing to read. -/
def Column.getBytes (c : Column) (st : EngineState) : Int :=
  match st.cellOf c with
  | none => 0
  | some v => v.byteLength

/-- Cast operator to int, inline in Column.h: returns getInt(). -/
def Column.castInt (c : Column) (st : EngineState) : Int × EngineState :=
  c.getInt st

/-- Cast operator to sqlite3_int64, inline in Column.h: returns getInt64(). -/
def Column.castInt64 (c : Column) (st : EngineState) : Int × EngineState :=
  c.getInt64 st

/-- Cast operator to double, inline in Column.h: returns getDouble(). -/
def Column.castDouble (c : Column) (st : EngineState) : Rat × EngineState :=
  c.getDouble st

/-- Cast operator to const char pointer, inline in Column.h: returns
getText(). -/
def Column.castText (c : Column) (st : EngineState) : TextRef × EngineState :=
  c.getText st

/-- Cast operator to const void pointer, inline in Column.h: returns
getBlob(). -/
def Column.castBlob (c : Column) (st : EngineState) : BlobRef × EngineState :=
  c.getBlob st

/-- Cast operator to const std::string, inline in Column.h under the GNUC
conditional: constructs a std::string from getText(), which copies the
pointed-at bytes into an owned value. -/
def Column.toStdString (c : Column) (st : EngineState) : String × EngineState :=
  ((c.getText st).1.bytes, (c.getText st).2)

/-- Column::errmsg, inline in Column.h: returns
sqlite3_errmsg(mStmtPtr), the most recent error of the connection the
statement handle reaches; it reads no cell and changes nothing. -/
def Column.errmsg (c : Column) (st : EngineState) : String :=
  sqlite3_errmsg st (st.connOfPtr c.mStmtPtr)

/-- Model of a std::ostream: an identity and the bytes inserted so far. -/
structure OStream where
  sid : Nat
  buf : String
deriving DecidableEq

/-- The free stream inserter declared in Column.h. Modelled from the spec:
inserts the text value of the Column, using getText(), into the provided
stream and returns a reference to that same stream. -/
def streamInsertColumn (s : OStream) (c : Column) (st : EngineState) :
    OStream × EngineState :=
  ({ sid := s.sid, buf := s.buf ++ (c.getText st).1.bytes }, (c.getText st).2)

/-- The possible results of the public operations of Column. -/
inductive ColumnResult where
  | rInt (i : Int)
  | rRat (q : Rat)
  | rText (t : TextRef)
  | rBlob (b : BlobRef)
  | rBool (b : Bool)
  | rStr (s : String)
  | rStream (s : OStream)
deriving DecidableEq

/-- One public operation of a Column object (the stream inserter carries the
stream it writes to). -/
inductive ColumnOp where
  | opGetInt
  | opGetInt64
  | opGetDouble
  | opGetText
  | opGetBlob
  | opGetType
  | opIsInteger
  | opIsFloat
  | opIsText
  | opIsBlob
  | opIsNull
  | opGetBytes
  | opCastInt
  | opCastInt64
  | opCastDouble
  | opCastText
  | opCastBlob
  | opToStdString
  | opErrmsg
  | opStreamInsert (s : OStream)
deriving DecidableEq

/-- Running one public operation on a Column object: result, the object
after the call, and the engine world after the call. Every member is
const-qualified in Column.h and the inserter takes the Column by const
reference, so the object after the call is the object before it. -/
def Column.applyOp : ColumnOp → Column → EngineState →
    ColumnResult × Column × EngineState
  | .opGetInt, c, st => (.rInt (c.getInt st).1, c, (c.getInt st).2)
  | .opGetInt64, c, st => (.rInt (c.getInt64 st).1, c, (c.getInt64 st).2)
  | .opGetDouble, c, st => (.rRat (c.getDouble st).1, c, (c.getDouble st).2)
  | .opGetText, c, st => (.rText (c.getText st).1, c, (c.getText st).2)
  | .opGetBlob, c, st => (.rBlob (c.getBlob st).1, c, (c.getBlob st).2)
  | .opGetType, c, st => (.rInt (c.getType st), c, st)
  | .opIsInteger, c, st => (.rBool (c.isInteger st), c, st)
  | .opIsFloat, c, st => (.rBool (c.isFloat st), c, st)
  | .opIsText, c, st => (.rBool (c.isText st), c, st)
  | .opIsBlob, c, st => (.rBool (c.isBlob st), c, st)
  | .opIsNull, c, st => (.rBool (c.isNull st), c, st)
  | .opGetBytes, c, st => (.rInt (c.getBytes st), c, st)
  | .opCastInt, c, st => (.rInt (c.castInt st).1, c, (c.castInt st).2)
  | .opCastInt64, c, st => (.rInt (c.castInt64 st).1, c, (c.castInt64 st).2)
  | .opCastDouble, c, st => (.rRat (c.castDouble st).1, c, (c.castDouble st).2)
  | .opCastText, c, st => (.rText (c.castText st).1, c, (c.castText st).2)
  | .opCastBlob, c, st => (.rBlob (c.castBlob st).1, c, (c.castBlob st).2)
  | .opToStdString, c, st =>
      (.rStr (c.toStdString st).1, c, (c.toStdString st).2)
  | .opErrmsg, c, st => (.rStr (c.errmsg st), c, st)
  | .opStreamInsert s, c, st =>
      (.rStream (streamInsertColumn s c st).1, c, (streamInsertColumn s c st).2)

/-- A concrete statement handle used in concrete evaluations. -/
def wPtr : StatementPtr := { stmtId := 0 }

/-- A concrete column bound to cell 0 of statement 0. -/
def wCol : Column := { mStmtPtr := wPtr, mIndex := 0 }

/-- The concrete statement object of wState: one reference, connection 0,
a single integer cell 42 in the current row. -/
def wObj : StmtObj := { refCount := 1, connId := 0, row := [.integer 42] }

/-- A concrete engine world: statement 0 is alive with one reference on
connection 0, its current row holds the single integer cell 42. -/
def wState : EngineState :=
  { stmts := fun n =>
      if n = 0 then some { refCount := 1, connId := 0, row := [.integer 42] }
      else none,
    connError := fun _ => "not an error" }

/-- A concrete engine world whose single row cell is null. -/
def wStateNull : EngineState :=
  { stmts := fun n =>
      if n = 0 then some { refCount := 1, connId := 0, row := [.null] }
      else none,
    connError := fun _ => "not an error" }

/-- A concrete column whose index 5 is out of range of the one-cell row. -/
def wColOut : Column := { mStmtPtr := wPtr, mIndex := 5 }

end SQLiteCpp

namespace SQLiteCpp

theorem writeCell_stmts_isSome (st : EngineState) (c : Column) (v : CellValue)
    (n : Nat) : ((st.writeCell c v).stmts n).isSome = (st.stmts n).isSome := by
  unfold EngineState.writeCell
  by_cases hn : n = c.mStmtPtr.stmtId
  · simp [hn]
  · simp [hn]

theorem getText_ref_stmtId (c : Column) (st : EngineState) :
    (c.getText st).1.stmtId = c.mStmtPtr.stmtId := by
  unfold Column.getText
  cases st.cellOf c with
  | none => rfl
  | some v => cases v <;> rfl

theorem decRef_incRef_stmts (st : EngineState) (p : StatementPtr) (o : StmtObj)
    (h : st.stmts p.stmtId = some o) (hrc : 1 ≤ o.refCount) :
    ∀ n, ((st.incRef p).decRef p).stmts n = st.stmts n := by
  intro n
  unfold EngineState.incRef EngineState.decRef
  by_cases hn : n = p.stmtId
  · subst hn
    simp [h]
    omega
  · simp [hn]

theorem cellOf_congr_stmts (c : Column) (st st2 : EngineState)
    (h : ∀ n, st2.stmts n = st.stmts n) : st2.cellOf c = st.cellOf c := by
  unfold EngineState.cellOf
  rw [h]

theorem getter_values_congr (c c2 : Column) (st st2 : EngineState)
    (hp : c2.mStmtPtr = c.mStmtPtr)
    (hc : st2.cellOf c2 = st.cellOf c) :
    (c2.getInt st2).1 = (c.getInt st).1 ∧
    (c2.getInt64 st2).1 = (c.getInt64 st).1 ∧
    (c2.getDouble st2).1 = (c.getDouble st).1 ∧
    (c2.getText st2).1 = (c.getText st).1 ∧
    (c2.getBlob st2).1 = (c.getBlob st).1 ∧
    c2.getType st2 = c.getType st ∧
    c2.getBytes st2 = c.getBytes st := by
  unfold Column.getInt Column.getInt64 Column.getDouble Column.getText
    Column.getBlob Column.getType Column.getBytes
  rw [hc, hp]
  cases st.cellOf c with
  | none => exact ⟨rfl, rfl, rfl, rfl, rfl, rfl, rfl⟩
  | some v => cases v <;> exact ⟨rfl, rfl, rfl, rfl, rfl, rfl, rfl⟩

end SQLiteCpp

namespace SQLiteCpp

/-- C1: for every Column bound to a valid (statement, index) pair and
queried before any coercing getter, getType returns exactly one of the five
tags SQLITE_INTEGER, SQLITE_FLOAT, SQLITE_TEXT, SQLITE_BLOB, SQLITE_NULL,
and each boolean predicate holds exactly when getType equals its tag. -/
theorem getType_in_five_tags_iff_predicates (c : Column) (st : EngineState)
    (v : CellValue) (h : st.cellOf c = some v) :
    (c.getType st = SQLITE_INTEGER ∨ c.getType st = SQLITE_FLOAT ∨
      c.getType st = SQLITE_TEXT ∨ c.getType st = SQLITE_BLOB ∨
      c.getType st = SQLITE_NULL) ∧
    (c.isInteger st = true ↔ c.getType st = SQLITE_INTEGER) ∧
    (c.isFloat st = true ↔ c.getType st = SQLITE_FLOAT) ∧
    (c.isText st = true ↔ c.getType st = SQLITE_TEXT) ∧
    (c.isBlob st = true ↔ c.getType st = SQLITE_BLOB) ∧
    (c.isNull st = true ↔ c.getType st = SQLITE_NULL) := by
  have ht : c.getType st = v.typeTag := by unfold Column.getType; rw [h]
  refine ⟨?_, ?_, ?_, ?_, ?_, ?_⟩
  · cases v <;> simp [ht, CellValue.typeTag]
  all_goals
    simp only [Column.isInteger, Column.isFloat, Column.isText, Column.isBlob,
      Column.isNull, beq_iff_eq]
  all_goals exact eq_comm

/-- Witness for C1 at the concrete integer cell of wState. -/
theorem getType_in_five_tags_iff_predicates_witness :
    wState.cellOf wCol = some (CellValue.integer 42) ∧
    ((wCol.getType wState = SQLITE_INTEGER ∨ wCol.getType wState = SQLITE_FLOAT ∨
      wCol.getType wState = SQLITE_TEXT ∨ wCol.getType wState = SQLITE_BLOB ∨
      wCol.getType wState = SQLITE_NULL) ∧
    (wCol.isInteger wState = true ↔ wCol.getType wState = SQLITE_INTEGER) ∧
    (wCol.isFloat wState = true ↔ wCol.getType wState = SQLITE_FLOAT) ∧
    (wCol.isText wState = true ↔ wCol.getType wState = SQLITE_TEXT) ∧
    (wCol.isBlob wState = true ↔ wCol.getType wState = SQLITE_BLOB) ∧
    (wCol.isNull wState = true ↔ wCol.getType wState = SQLITE_NULL)) :=
  ⟨by decide,
    getType_in_five_tags_iff_predicates wCol wState (CellValue.integer 42)
      (by decide)⟩

/-- C2: each type-view cast operator of Column is a pure alias of the
corresponding getter, with no independent logic. -/
theorem cast_operators_alias_getters (c : Column) (st : EngineState) :
    c.castInt st = c.getInt st ∧ c.castInt64 st = c.getInt64 st ∧
    c.castDouble st = c.getDouble st ∧ c.castText st = c.getText st ∧
    c.castBlob st = c.getBlob st :=
  ⟨rfl, rfl, rfl, rfl, rfl⟩

/-- C3: every accessor of Column is total and non-throwing; in particular,
misuse (no cell to read: the statement is gone or the index is out of
range) yields the defined default results 0, 0.0, empty text, empty blob,
the SQLITE_NULL tag and byte count 0, with the engine state untouched,
instead of a signaled failure. -/
theorem accessors_default_on_misuse_nothrow (c : Column) (st : EngineState)
    (h : st.cellOf c = none) :
    c.getInt st = (0, st) ∧ c.getInt64 st = (0, st) ∧
    c.getDouble st = (0, st) ∧
    c.getText st = ({ stmtId := c.mStmtPtr.stmtId, bytes := "" }, st) ∧
    c.getBlob st = ({ stmtId := c.mStmtPtr.stmtId, bytes := [] }, st) ∧
    c.getType st = SQLITE_NULL ∧ c.getBytes st = 0 := by
  unfold Column.getInt Column.getInt64 Column.getDouble Column.getText
    Column.getBlob Column.getType Column.getBytes
  rw [h]
  exact ⟨rfl, rfl, rfl, rfl, rfl, rfl, rfl⟩

/-- Witness for C3 at the concrete out-of-range column wColOut. -/
theorem accessors_default_on_misuse_nothrow_witness :
    wState.cellOf wColOut = none ∧
    (wColOut.getInt wState = (0, wState) ∧
    wColOut.getInt64 wState = (0, wState) ∧
    wColOut.getDouble wState = (0, wState) ∧
    wColOut.getText wState =
      ({ stmtId := wColOut.mStmtPtr.stmtId, bytes := "" }, wState) ∧
    wColOut.getBlob wState =
      ({ stmtId := wColOut.mStmtPtr.stmtId, bytes := [] }, wState) ∧
    wColOut.getType wState = SQLITE_NULL ∧ wColOut.getBytes wState = 0) :=
  ⟨by decide, accessors_default_on_misuse_nothrow wColOut wState (by decide)⟩

/-- C4: on a null cell, getInt returns 0, getDouble returns 0.0, getText
returns a zero-length string, and getBytes returns 0. -/
theorem null_cell_defaults (c : Column) (st : EngineState)
    (h : st.cellOf c = some CellValue.null) :
    (c.getInt st).1 = 0 ∧ (c.getDouble st).1 = 0 ∧
    (c.getText st).1.bytes = "" ∧ c.getBytes st = 0 := by
  unfold Column.getInt Column.getDouble Column.getText Column.getBytes
  rw [h]
  exact ⟨rfl, rfl, rfl, rfl⟩

/-- Witness for C4 at the concrete null cell of wStateNull. -/
theorem null_cell_defaults_witness :
    wStateNull.cellOf wCol = some CellValue.null ∧
    ((wCol.getInt wStateNull).1 = 0 ∧ (wCol.getDouble wStateNull).1 = 0 ∧
    (wCol.getText wStateNull).1.bytes = "" ∧ wCol.getBytes wStateNull = 0) :=
  ⟨by decide, null_cell_defaults wCol wStateNull (by decide)⟩

/-- C5: a cell storing the integer 42 reads back as getInt = 42,
getDouble = 42.0 and getText = the byte sequence 42. -/
theorem integer_42_round_trip (c : Column) (st : EngineState)
    (h : st.cellOf c = some (CellValue.integer 42)) :
    (c.getInt st).1 = 42 ∧ (c.getDouble st).1 = 42 ∧
    (c.getText st).1.bytes = "42" := by
  unfold Column.getInt Column.getDouble Column.getText
  rw [h]
  exact ⟨rfl, rfl, rfl⟩

/-- Witness for C5 at the concrete integer cell of wState. -/
theorem integer_42_round_trip_witness :
    wState.cellOf wCol = some (CellValue.integer 42) ∧
    ((wCol.getInt wState).1 = 42 ∧ (wCol.getDouble wState).1 = 42 ∧
    (wCol.getText wState).1.bytes = "42") :=
  ⟨by decide, integer_42_round_trip wCol wState (by decide)⟩

/-- C6: errmsg is a pure passthrough of sqlite3_errmsg for the connection
reachable from the statement handle; it is not scoped to the cell: any two
columns over the same statement handle report the same string, and errmsg
is a pure function of the state, taking no other action. -/
theorem errmsg_passthrough_connection_wide (c c2 : Column) (st : EngineState)
    (h : c2.mStmtPtr = c.mStmtPtr) :
    c.errmsg st = sqlite3_errmsg st (st.connOfPtr c.mStmtPtr) ∧
    c2.errmsg st = c.errmsg st := by
  refine ⟨rfl, ?_⟩
  unfold Column.errmsg
  rw [h]

/-- Witness for C6 with two concrete columns over the same handle. -/
theorem errmsg_passthrough_connection_wide_witness :
    wColOut.mStmtPtr = wCol.mStmtPtr ∧
    (wCol.errmsg wState = sqlite3_errmsg wState (wState.connOfPtr wCol.mStmtPtr) ∧
    wColOut.errmsg wState = wCol.errmsg wState) :=
  ⟨by decide, errmsg_passthrough_connection_wide wCol wColOut wState (by decide)⟩

end SQLiteCpp

namespace SQLiteCpp

/-- C7: every public operation of a Column leaves the two fields of the
accessor object unchanged (all members are const-qualified), although the
engine cell behind it may change: a getDouble on the concrete integer cell
of wState changes the stored cell. -/
theorem column_object_fields_frame :
    (∀ (op : ColumnOp) (c : Column) (st : EngineState),
        (Column.applyOp op c st).2.1.mStmtPtr = c.mStmtPtr ∧
        (Column.applyOp op c st).2.1.mIndex = c.mIndex) ∧
    wState.cellOf wCol = some (CellValue.integer 42) ∧
    (Column.applyOp ColumnOp.opGetDouble wCol wState).2.2.cellOf wCol =
      some (CellValue.float 42) := by
  refine ⟨?_, by decide, by decide⟩
  intro op c st
  cases op <;> exact ⟨rfl, rfl⟩

/-- C8: copying a Column duplicates the statement handle and the index and
increments the reference count of the statement; destroying the original
afterwards leaves the statement alive, and every getter on the copy in the
resulting world returns what it would have returned on the original. -/
theorem copy_increments_refcount_and_behaves_identically
    (c : Column) (st : EngineState) (o : StmtObj)
    (h : st.stmts c.mStmtPtr.stmtId = some o) (hrc : 1 ≤ o.refCount) :
    (c.copy st).1.mStmtPtr = c.mStmtPtr ∧ (c.copy st).1.mIndex = c.mIndex ∧
    (c.copy st).2.stmts c.mStmtPtr.stmtId =
      some { o with refCount := o.refCount + 1 } ∧
    ((Column.destroy c (c.copy st).2).stmts c.mStmtPtr.stmtId).isSome = true ∧
    ((c.copy st).1.getInt (Column.destroy c (c.copy st).2)).1 =
      (c.getInt st).1 ∧
    ((c.copy st).1.getInt64 (Column.destroy c (c.copy st).2)).1 =
      (c.getInt64 st).1 ∧
    ((c.copy st).1.getDouble (Column.destroy c (c.copy st).2)).1 =
      (c.getDouble st).1 ∧
    ((c.copy st).1.getText (Column.destroy c (c.copy st).2)).1 =
      (c.getText st).1 ∧
    ((c.copy st).1.getBlob (Column.destroy c (c.copy st).2)).1 =
      (c.getBlob st).1 ∧
    (c.copy st).1.getType (Column.destroy c (c.copy st).2) = c.getType st ∧
    (c.copy st).1.getBytes (Column.destroy c (c.copy st).2) = c.getBytes st := by
  have hst : ∀ n, (Column.destroy c (c.copy st).2).stmts n = st.stmts n :=
    decRef_incRef_stmts st c.mStmtPtr o h hrc
  have hcell :
      (Column.destroy c (c.copy st).2).cellOf (c.copy st).1 = st.cellOf c :=
    cellOf_congr_stmts (c.copy st).1 st (Column.destroy c (c.copy st).2) hst
  have hv := getter_values_congr c (c.copy st).1 st
    (Column.destroy c (c.copy st).2) rfl hcell
  refine ⟨rfl, rfl, ?_, ?_, hv.1, hv.2.1, hv.2.2.1, hv.2.2.2.1,
    hv.2.2.2.2.1, hv.2.2.2.2.2.1, hv.2.2.2.2.2.2⟩
  · unfold Column.copy EngineState.incRef
    simp [h]
  · rw [hst]
    simp [h]

/-- Witness for C8 at the concrete world wState and its statement wObj. -/
theorem copy_increments_refcount_witness :
    wState.stmts wCol.mStmtPtr.stmtId = some wObj ∧ 1 ≤ wObj.refCount ∧
    ((wCol.copy wState).1.mStmtPtr = wCol.mStmtPtr ∧
    (wCol.copy wState).1.mIndex = wCol.mIndex ∧
    (wCol.copy wState).2.stmts wCol.mStmtPtr.stmtId =
      some { wObj with refCount := wObj.refCount + 1 } ∧
    ((Column.destroy wCol (wCol.copy wState).2).stmts
      wCol.mStmtPtr.stmtId).isSome = true ∧
    ((wCol.copy wState).1.getInt (Column.destroy wCol (wCol.copy wState).2)).1 =
      (wCol.getInt wState).1 ∧
    ((wCol.copy wState).1.getInt64
      (Column.destroy wCol (wCol.copy wState).2)).1 = (wCol.getInt64 wState).1 ∧
    ((wCol.copy wState).1.getDouble
      (Column.destroy wCol (wCol.copy wState).2)).1 =
      (wCol.getDouble wState).1 ∧
    ((wCol.copy wState).1.getText
      (Column.destroy wCol (wCol.copy wState).2)).1 = (wCol.getText wState).1 ∧
    ((wCol.copy wState).1.getBlob
      (Column.destroy wCol (wCol.copy wState).2)).1 = (wCol.getBlob wState).1 ∧
    (wCol.copy wState).1.getType (Column.destroy wCol (wCol.copy wState).2) =
      wCol.getType wState ∧
    (wCol.copy wState).1.getBytes (Column.destroy wCol (wCol.copy wState).2) =
      wCol.getBytes wState) :=
  ⟨by decide, by decide,
    copy_increments_refcount_and_behaves_identically wCol wState wObj
      (by decide) (by decide)⟩

/-- C9: the free stream inserter writes exactly the getText value of the
column onto the given stream, returns that same stream (same identity,
content extended by exactly those bytes), and has no effect beyond the one
getText performs. -/
theorem stream_inserter_appends_getText (s : OStream) (c : Column)
    (st : EngineState) :
    (streamInsertColumn s c st).1.sid = s.sid ∧
    (streamInsertColumn s c st).1.buf = s.buf ++ (c.getText st).1.bytes ∧
    (streamInsertColumn s c st).2 = (c.getText st).2 :=
  ⟨rfl, rfl, rfl⟩

/-- C10: under GCC the Column also converts to std::string, an owned copy
of the bytes getText points at: the conversion yields exactly those bytes
with exactly the getText effect on the engine, and while the borrowed
getText reference dies when the statement is finalized, the returned
string is a plain value that no longer depends on the engine state. -/
theorem gnuc_string_conversion_owned_copy (c : Column) (st : EngineState)
    (h : (st.stmts c.mStmtPtr.stmtId).isSome = true) :
    (c.toStdString st).1 = (c.getText st).1.bytes ∧
    (c.toStdString st).2 = (c.getText st).2 ∧
    TextRef.valid (c.getText st).1 (c.getText st).2 = true ∧
    TextRef.valid (c.getText st).1
      ((c.getText st).2.finalize c.mStmtPtr) = false := by
  refine ⟨rfl, rfl, ?_, ?_⟩
  · unfold TextRef.valid
    rw [getText_ref_stmtId]
    unfold Column.getText
    cases hcc : st.cellOf c with
    | none => exact h
    | some v => cases v <;> simp [writeCell_stmts_isSome, h]
  · simp [TextRef.valid, EngineState.finalize, getText_ref_stmtId]

/-- Witness for C10 at the live concrete statement of wState. -/
theorem gnuc_string_conversion_owned_copy_witness :
    (wState.stmts wCol.mStmtPtr.stmtId).isSome = true ∧
    ((wCol.toStdString wState).1 = (wCol.getText wState).1.bytes ∧
    (wCol.toStdString wState).2 = (wCol.getText wState).2 ∧
    TextRef.valid (wCol.getText wState).1 (wCol.getText wState).2 = true ∧
    TextRef.valid (wCol.getText wState).1
      ((wCol.getText wState).2.finalize wCol.mStmtPtr) = false) :=
  ⟨by decide, gnuc_string_conversion_owned_copy wCol wState (by decide)⟩

end SQLiteCpp
